import Mathlib

/-!
Verification of the grocery-inventory web application (src/app.py).

The application is a Flask CRUD app over two tables (User, Item) with
session-cookie authentication, WTForms validation, and CSV export.  We give a
shallow embedding: the database and the session are an explicit state record,
each route handler becomes a state-passing function, and the WTForms
validators (DataRequired, Length, EqualTo, and the Integer and Float field
coercions) are translated to executable Lean functions.
-/

namespace GroceryInventory

/-- Python str.strip / WTForms blank test: ASCII whitespace characters. -/
def pyIsSpace (c : Char) : Bool :=
  c == ' ' || c == '\t' || c == '\n' || c == '\r' || c == '\x0b' || c == '\x0c'

/-- Python str.strip on a character list: drop whitespace at both ends. -/
def pyStripList (cs : List Char) : List Char :=
  ((cs.dropWhile pyIsSpace).reverse.dropWhile pyIsSpace).reverse

/-- Python str.strip. -/
def pyStrip (s : String) : String := ⟨pyStripList s.data⟩

/-- WTForms DataRequired on a string field: the data must be truthy, and a
string consisting only of whitespace is treated as absent. -/
def dataRequired (s : String) : Bool := !(pyStripList s.data).isEmpty

/-- Accumulate a decimal digit string into a Nat; fails on a non-digit. -/
def parseDigits : List Char → Nat → Option Nat
  | [], acc => some acc
  | c :: rest, acc =>
      if c.isDigit then parseDigits rest (acc * 10 + (c.toNat - 48)) else none

/-- Python int(string) as used by the WTForms IntegerField coercion:
optional surrounding whitespace, optional sign, one or more decimal digits.
(Digit-group underscores and non-decimal bases are not exercised here.) -/
def pyParseIntList (cs : List Char) : Option Int :=
  match pyStripList cs with
  | [] => none
  | '-' :: rest =>
      if rest.isEmpty then none
      else (parseDigits rest 0).map (fun n => -(n : Int))
  | '+' :: rest =>
      if rest.isEmpty then none
      else (parseDigits rest 0).map (fun n => (n : Int))
  | cs' => (parseDigits cs' 0).map (fun n => (n : Int))

def pyParseInt (s : String) : Option Int := pyParseIntList s.data

/-- Value of a list of decimal digit characters. -/
def digitsVal (cs : List Char) : Nat := cs.foldl (fun a c => a * 10 + (c.toNat - 48)) 0

/-- Python float(string) as used by the WTForms FloatField coercion, on the
decimal forms the application receives: optional whitespace and sign, then
digits, digits.digits, digits. or .digits, with at least one digit.  The
value is kept exactly as a rational (every decimal literal is exact).
Exponent forms and the special words inf and nan are not exercised here. -/
def pyParseFloatList (cs : List Char) : Option Rat :=
  let cs₀ := pyStripList cs
  let signed : Bool × List Char :=
    match cs₀ with
    | '-' :: rest => (true, rest)
    | '+' :: rest => (false, rest)
    | _ => (false, cs₀)
  let neg := signed.1
  let body := signed.2
  let intPart := body.takeWhile Char.isDigit
  let rest := body.dropWhile Char.isDigit
  let signInt : Int → Int := fun n => if neg then -n else n
  match rest with
  | [] =>
      if intPart.isEmpty then none
      else some (mkRat (signInt (digitsVal intPart)) 1)
  | '.' :: fracRest =>
      let fracPart := fracRest.takeWhile Char.isDigit
      let rest₂ := fracRest.dropWhile Char.isDigit
      if !rest₂.isEmpty then none
      else if intPart.isEmpty && fracPart.isEmpty then none
      else some (mkRat
        (signInt (digitsVal intPart * 10 ^ fracPart.length + digitsVal fracPart))
        (10 ^ fracPart.length))
  | _ => none

def pyParseFloat (s : String) : Option Rat := pyParseFloatList s.data

/-- A User row: integer primary key, username, password hash
(src/app.py lines 28-31). -/
structure User where
  id : Int
  username : String
  passwordHash : String
deriving DecidableEq

/-- An Item row: integer primary key, name, integer quantity, float price
(src/app.py lines 40-44).  Prices are decimal form inputs, kept exactly as
rationals. -/
structure Item where
  id : Int
  name : String
  quantity : Int
  price : Rat
deriving DecidableEq

/-- The application state: the two tables, the autoincrement counters of
their primary keys, and the session (the id of the logged-in user, if any). -/
structure AppState where
  users : List User
  items : List Item
  nextUserId : Int
  nextItemId : Int
  session : Option Int
deriving DecidableEq

/-- The state of a fresh application: empty tables, autoincrement at 1,
nobody logged in. -/
def initState : AppState :=
  { users := [], items := [], nextUserId := 1, nextItemId := 1, session := none }

/-- Password hashing is delegated to a salted one-way hash library
(werkzeug generate_password_hash, src/app.py line 34).  The library contract
the application relies on is that checking a password against a stored hash
succeeds exactly for the password that produced the hash; we model the hash
as an injective tagging of the password. -/
def generate_password_hash (p : String) : String := "pbkdf2:" ++ p

/-- werkzeug check_password_hash (src/app.py line 37): succeeds exactly when
the candidate password is the one the hash was generated from. -/
def check_password_hash (h p : String) : Bool := h == generate_password_hash p

/-- LoginForm validation (src/app.py lines 48-53): username DataRequired and
Length(min=4, max=150); password DataRequired. -/
def validateLoginForm (username password : String) : Bool :=
  dataRequired username && decide (4 ≤ username.length) &&
    decide (username.length ≤ 150) && dataRequired password

/-- RegisterForm validation (src/app.py lines 56-66): username DataRequired
and Length(min=4, max=150); password DataRequired and Length(min=4);
confirm_password DataRequired and EqualTo(password). -/
def validateRegisterForm (username password confirm : String) : Bool :=
  (dataRequired username && decide (4 ≤ username.length) &&
     decide (username.length ≤ 150)) &&
  (dataRequired password && decide (4 ≤ password.length)) &&
  (dataRequired confirm && (confirm == password))

/-- ItemForm validation and data extraction (src/app.py lines 69-73): name
StringField with DataRequired; quantity IntegerField with DataRequired;
price FloatField with DataRequired.  A missing field or a failed numeric
coercion fails validation; moreover DataRequired tests the coerced value for
Python truthiness, so a zero quantity or zero price also fails.  On success
this returns the coerced form data the handler reads. -/
def itemFormData (name quantity price : Option String) :
    Option (String × Int × Rat) :=
  match name with
  | none => none
  | some n =>
      match quantity.bind pyParseInt with
      | none => none
      | some q =>
          match price.bind pyParseFloat with
          | none => none
          | some p =>
              if dataRequired n && decide (q ≠ 0) && decide (p ≠ 0) then
                some (n, q, p)
              else none

/-- Outcome of the index (list) route. -/
inductive IndexResult
  | redirectLogin
  | page (items : List Item)
deriving DecidableEq

/-- GET / (src/app.py lines 87-91): login_required guard, then render all
items. -/
def index (s : AppState) : IndexResult × AppState :=
  if s.session.isNone then (IndexResult.redirectLogin, s)
  else (IndexResult.page s.items, s)

/-- Outcome of the login route. -/
inductive LoginResult
  | alreadyAuthenticated
  | success
  | invalidCredentials
  | formError
deriving DecidableEq

/-- GET|POST /login (src/app.py lines 94-106): authenticated users are
redirected; on a valid submission the first user with the given username is
looked up and the password hash checked; a failed check or a missing user
flashes invalid credentials; an invalid form re-renders the page. -/
def login (s : AppState) (username password : String) : LoginResult × AppState :=
  if s.session.isSome then (LoginResult.alreadyAuthenticated, s)
  else if validateLoginForm username password then
    match s.users.find? (fun u => u.username == username) with
    | some u =>
        if check_password_hash u.passwordHash password then
          (LoginResult.success, { s with session := some u.id })
        else (LoginResult.invalidCredentials, s)
    | none => (LoginResult.invalidCredentials, s)
  else (LoginResult.formError, s)

/-- Outcome of the logout route. -/
inductive LogoutResult
  | redirectLogin
  | success
deriving DecidableEq

/-- GET /logout (src/app.py lines 109-114): login_required guard, then clear
the session. -/
def logout (s : AppState) : LogoutResult × AppState :=
  if s.session.isNone then (LogoutResult.redirectLogin, s)
  else (LogoutResult.success, { s with session := none })

/-- Outcome of the register route. -/
inductive RegisterResult
  | alreadyAuthenticated
  | duplicateUsername
  | success
  | formError
deriving DecidableEq

/-- GET|POST /register (src/app.py lines 117-135): authenticated users are
redirected; on a valid submission an existing user with the same username
causes a duplicate-username flash; otherwise a new User with the hashed
password is inserted. -/
def register (s : AppState) (username password confirm : String) :
    RegisterResult × AppState :=
  if s.session.isSome then (RegisterResult.alreadyAuthenticated, s)
  else if validateRegisterForm username password confirm then
    match s.users.find? (fun u => u.username == username) with
    | some _ => (RegisterResult.duplicateUsername, s)
    | none =>
        let u : User :=
          { id := s.nextUserId, username := username,
            passwordHash := generate_password_hash password }
        (RegisterResult.success,
          { s with users := s.users ++ [u], nextUserId := s.nextUserId + 1 })
  else (RegisterResult.formError, s)

/-- Outcome of the item add, edit and delete routes. -/
inductive ItemResult
  | redirectLogin
  | success
  | formError
  | notFound
deriving DecidableEq

/-- GET|POST /item/add (src/app.py lines 138-152): login_required guard; on a
valid submission a new Item with the coerced form data is inserted. -/
def add_item (s : AppState) (name quantity price : Option String) :
    ItemResult × AppState :=
  if s.session.isNone then (ItemResult.redirectLogin, s)
  else
    match itemFormData name quantity price with
    | some (n, q, p) =>
        let it : Item := { id := s.nextItemId, name := n, quantity := q, price := p }
        (ItemResult.success,
          { s with items := s.items ++ [it], nextItemId := s.nextItemId + 1 })
    | none => (ItemResult.formError, s)

/-- Replace the first item with the given primary key (the row get returns)
by its update; the rest of the table is untouched. -/
def updateFirst (items : List Item) (iid : Int) (f : Item → Item) : List Item :=
  match items with
  | [] => []
  | x :: xs => if x.id == iid then f x :: xs else x :: updateFirst xs iid f

/-- Remove the first item with the given primary key (the row get returns);
the rest of the table is untouched. -/
def eraseFirst (items : List Item) (iid : Int) : List Item :=
  match items with
  | [] => []
  | x :: xs => if x.id == iid then xs else x :: eraseFirst xs iid

/-- GET|POST /item/edit/<id> (src/app.py lines 155-167): login_required
guard; get_or_404 on the id; on a valid submission the three fields of that
row are overwritten with the coerced form data. -/
def edit_item (s : AppState) (item_id : Int) (name quantity price : Option String) :
    ItemResult × AppState :=
  if s.session.isNone then (ItemResult.redirectLogin, s)
  else
    match s.items.find? (fun i => i.id == item_id) with
    | none => (ItemResult.notFound, s)
    | some _ =>
        match itemFormData name quantity price with
        | some (n, q, p) =>
            let upd : Item → Item :=
              fun i => { i with name := n, quantity := q, price := p }
            (ItemResult.success, { s with items := updateFirst s.items item_id upd })
        | none => (ItemResult.formError, s)

/-- POST /item/delete/<id> (src/app.py lines 170-177): login_required guard;
get_or_404 on the id; the row is deleted. -/
def delete_item (s : AppState) (item_id : Int) : ItemResult × AppState :=
  if s.session.isNone then (ItemResult.redirectLogin, s)
  else
    match s.items.find? (fun i => i.id == item_id) with
    | none => (ItemResult.notFound, s)
    | some _ =>
        (ItemResult.success, { s with items := eraseFirst s.items item_id })

/-- A Python value handed to csv.writer.writerow. -/
inductive PyVal
  | int (n : Int)
  | str (s : String)
  | rat (q : Rat)
deriving DecidableEq

/-- Decimal digits of the fractional part num/den, most significant first,
stopping when the remainder is zero (or at the fuel bound). -/
def fracDigits (num den : Nat) : Nat → List Nat
  | 0 => []
  | fuel + 1 =>
      if num == 0 then []
      else (num * 10 / den) :: fracDigits (num * 10 % den) den fuel

/-- Python str of a float, on the exact decimal values the application
stores: sign, integer part, a point, and the fractional digits (at least
one, as Python always prints a fractional part for a float). -/
def pyFloatStr (q : Rat) : String :=
  let sign := if q < 0 then "-" else ""
  let n := q.num.natAbs
  let d := q.den
  let frac := fracDigits (n % d) d 64
  let fracStr := if frac.isEmpty then "0" else String.join (frac.map toString)
  sign ++ toString (n / d) ++ "." ++ fracStr

/-- Python str of a value written by csv.writer. -/
def pyStr : PyVal → String
  | PyVal.int n => toString n
  | PyVal.str s => s
  | PyVal.rat q => pyFloatStr q

/-- csv.writer field quoting (QUOTE_MINIMAL): a field is quoted only when it
contains the delimiter, a quote, or a line break; quotes are doubled. -/
def csvCell (s : String) : String :=
  if s.data.any (fun c => c == ',' || c == '"' || c == '\n' || c == '\r') then
    "\"" ++ String.mk (s.data.flatMap (fun c => if c == '"' then ['"', '"'] else [c])) ++ "\""
  else s

/-- csv.writer.writerow: the quoted fields joined by commas, terminated by
CRLF. -/
def csvLine (row : List PyVal) : String :=
  String.intercalate "," (row.map (fun v => csvCell (pyStr v))) ++ "\r\n"

/-- The whole CSV document: the concatenation of the lines. -/
def csvRender (rows : List (List PyVal)) : String :=
  String.join (rows.map csvLine)

/-- The file response of the export route: the rows written, and the
send_file metadata (src/app.py lines 190-195). -/
structure ExportResponse where
  rows : List (List PyVal)
  mimetype : String
  filename : String
  asAttachment : Bool
deriving DecidableEq

/-- A Python exception outcome. -/
inductive PyExc
  | typeError
deriving DecidableEq

/-- csv.writer(output).writerow where output is the BytesIO buffer created
at src/app.py line 184: on Python 3 the csv writer produces a str and
BytesIO.write accepts only bytes, so every writerow on this writer raises
TypeError, whatever the row holds. -/
def writerow (_row : List PyVal) : Except PyExc Unit :=
  Except.error PyExc.typeError

/-- Outcome of the export route. -/
inductive ExportResult
  | redirectLogin
  | serverError
  | file (resp : ExportResponse)
deriving DecidableEq

/-- GET /export (src/app.py lines 180-195): login_required guard; the
handler creates a BytesIO buffer and a csv.writer over it, then writes the
header row first.  On Python 3 that first writerow raises TypeError (a str
written to a bytes buffer), the exception propagates out of the handler,
and the route answers with a server error (HTTP 500).  The remainder of the
handler, kept here as the unreachable continuation, would write one row per
item in store iteration order and send the buffer as a text/csv attachment
named inventory.csv. -/
def export_items (s : AppState) : ExportResult × AppState :=
  if s.session.isNone then (ExportResult.redirectLogin, s)
  else
    match writerow [PyVal.str "ID", PyVal.str "Name", PyVal.str "Quantity", PyVal.str "Price"] with
    | Except.error _ => (ExportResult.serverError, s)
    | Except.ok _ =>
        let rows :=
          [PyVal.str "ID", PyVal.str "Name", PyVal.str "Quantity", PyVal.str "Price"] ::
            s.items.map (fun i =>
              [PyVal.int i.id, PyVal.str i.name, PyVal.int i.quantity, PyVal.rat i.price])
        (ExportResult.file
          { rows := rows, mimetype := "text/csv", filename := "inventory.csv",
            asAttachment := true }, s)

/-- The User row inserted by a successful registration
(src/app.py lines 129-131). -/
def newUser (s : AppState) (u p : String) : User :=
  { id := s.nextUserId, username := u, passwordHash := generate_password_hash p }

/-- A one-user fixture: the state after registering alice from a fresh
application. -/
def aliceState : AppState := (register initState "alice" "password" "password").2

/-- A fixture with a logged-in session and an empty item table. -/
def demoState : AppState :=
  { users := [], items := [], nextUserId := 1, nextItemId := 1, session := some 1 }

def itemA : Item := { id := 1, name := "Apple", quantity := 3, price := mkRat 1 2 }

def itemB : Item := { id := 2, name := "Bread", quantity := 7, price := 2 }

/-- A fixture with a logged-in session and two items. -/
def twoItemState : AppState :=
  { users := [], items := [itemA, itemB], nextUserId := 1, nextItemId := 3,
    session := some 1 }

/-! ### Helper lemmas -/

/-- Searching a concatenation when the left part has no match. -/
theorem find?_append_none {α : Type} (p : α → Bool) {l₁ : List α} (l₂ : List α)
    (h : l₁.find? p = none) : (l₁ ++ l₂).find? p = l₂.find? p := by
  induction l₁ with
  | nil => rfl
  | cons x xs ih =>
      cases hp : p x with
      | true => simp [List.find?_cons, hp] at h
      | false =>
          simp only [List.find?_cons, hp] at h
          simpa [List.find?_cons, hp] using ih h

/-- Under the primary-key invariant, removing the first row with a given id
removes every row with that id. -/
theorem eraseFirst_eq_filter (l : List Item) (iid : Int)
    (hnd : (l.map Item.id).Nodup) :
    eraseFirst l iid = l.filter (fun j => !(j.id == iid)) := by
  induction l with
  | nil => rfl
  | cons x xs ih =>
      simp only [List.map_cons, List.nodup_cons] at hnd
      by_cases hx : x.id == iid
      · have hxid : x.id = iid := by simpa using hx
        have hall : xs.filter (fun j => !(j.id == iid)) = xs := by
          apply List.filter_eq_self.mpr
          intro j hj
          have : j.id ≠ iid := fun hjid => hnd.1 (by
            subst hxid
            exact hjid ▸ List.mem_map_of_mem Item.id hj)
          simpa using this
        simp [eraseFirst, hx, hall]
      · simp [eraseFirst, hx, ih hnd.2]

/-- Under the primary-key invariant, updating the first row with a given id
updates every row with that id. -/
theorem updateFirst_eq_map (l : List Item) (iid : Int) (f : Item → Item)
    (hnd : (l.map Item.id).Nodup) :
    updateFirst l iid f = l.map (fun j => if j.id == iid then f j else j) := by
  induction l with
  | nil => rfl
  | cons x xs ih =>
      simp only [List.map_cons, List.nodup_cons] at hnd
      unfold updateFirst
      by_cases hx : (x.id == iid) = true
      · rw [if_pos hx, List.map_cons, if_pos hx]
        have hxid : x.id = iid := by simpa using hx
        have hall : ∀ j ∈ xs, (if j.id == iid then f j else j) = j := by
          intro j hj
          have hne : j.id ≠ iid := fun hjid => hnd.1 (by
            rw [hxid]
            exact hjid ▸ List.mem_map_of_mem Item.id hj)
          simp [hne]
        have hmap : xs.map (fun j => if j.id == iid then f j else j) = xs := by
          simpa using List.map_congr_left hall
        rw [hmap]
      · rw [if_neg hx, List.map_cons, if_neg hx, ih hnd.2]

/-- The register form validates only inside the declared length bounds and
with matching confirmation. -/
theorem validateRegisterForm_bounds (u p c : String)
    (hv : validateRegisterForm u p c = true) :
    4 ≤ u.length ∧ u.length ≤ 150 ∧ 4 ≤ p.length ∧ c = p := by
  unfold validateRegisterForm at hv
  simp only [Bool.and_eq_true, decide_eq_true_eq, beq_iff_eq] at hv
  exact ⟨hv.1.1.1.2, hv.1.1.2, hv.1.2.2, hv.2.2⟩

/-- A username and password accepted by the register form are accepted by
the login form. -/
theorem validateRegisterForm_login (u p c : String)
    (hv : validateRegisterForm u p c = true) :
    validateLoginForm u p = true := by
  unfold validateRegisterForm at hv
  unfold validateLoginForm
  simp only [Bool.and_eq_true, decide_eq_true_eq, beq_iff_eq] at hv ⊢
  exact ⟨⟨⟨hv.1.1.1.1, hv.1.1.1.2⟩, hv.1.1.2⟩, hv.1.2.1⟩

/-- Characterisation of a successful item form validation. -/
theorem itemFormData_eq_some (n q p : Option String) (nm : String) (qn : Int)
    (pr : Rat) :
    itemFormData n q p = some (nm, qn, pr) ↔
      n = some nm ∧ q.bind pyParseInt = some qn ∧ p.bind pyParseFloat = some pr ∧
        dataRequired nm = true ∧ qn ≠ 0 ∧ pr ≠ 0 := by
  rcases n with _ | nm'
  · simp [itemFormData]
  · rcases hq : q.bind pyParseInt with _ | qn'
    · simp [itemFormData, hq]
    · rcases hp : p.bind pyParseFloat with _ | pr'
      · simp [itemFormData, hq, hp]
      · constructor
        · intro h
          unfold itemFormData at h
          rw [hq, hp] at h
          dsimp only at h
          by_cases hc : (dataRequired nm' && decide (qn' ≠ 0) && decide (pr' ≠ 0)) = true
          · rw [if_pos hc] at h
            have h' := Option.some.inj h
            obtain ⟨h1, h2, h3⟩ : nm' = nm ∧ qn' = qn ∧ pr' = pr := by
              simpa [Prod.ext_iff] using h'
            subst h1; subst h2; subst h3
            simp only [Bool.and_eq_true, decide_eq_true_eq] at hc
            exact ⟨rfl, rfl, rfl, hc.1.1, hc.1.2, hc.2⟩
          · rw [if_neg hc] at h
            exact absurd h (by simp)
        · rintro ⟨hn, hq2, hp2, hdr, hqn, hpr⟩
          have h1 : nm' = nm := Option.some.inj hn
          have h2 : qn' = qn := Option.some.inj hq2
          have h3 : pr' = pr := Option.some.inj hp2
          subst h1; subst h2; subst h3
          unfold itemFormData
          rw [hq, hp]
          dsimp only
          rw [if_pos (by simp [hdr, hqn, hpr])]

/-! ### The claims -/

/-- Claim C1: after a logged-in user submits add with name Widget,
quantity 5, price 2.50 (a valid submission), a new Item with exactly those
field values exists in the store, and a subsequent list returns a collection
that includes that record with those exact values. -/
theorem C1_add_widget_then_list (s : AppState) (uid : Int)
    (hs : s.session = some uid) :
    (add_item s (some "Widget") (some "5") (some "2.50")).1 = ItemResult.success ∧
    (add_item s (some "Widget") (some "5") (some "2.50")).2.items =
      s.items ++ [{ id := s.nextItemId, name := "Widget", quantity := 5, price := mkRat 5 2 }] ∧
    (index (add_item s (some "Widget") (some "5") (some "2.50")).2).1 =
      IndexResult.page (s.items ++
        [{ id := s.nextItemId, name := "Widget", quantity := 5, price := mkRat 5 2 }]) ∧
    ({ id := s.nextItemId, name := "Widget", quantity := 5, price := mkRat 5 2 } : Item) ∈
      s.items ++ [{ id := s.nextItemId, name := "Widget", quantity := 5, price := mkRat 5 2 }] := by
  have hform : itemFormData (some "Widget") (some "5") (some "2.50") =
      some ("Widget", 5, mkRat 5 2) := by decide
  refine ⟨?_, ?_, ?_, ?_⟩ <;> simp [add_item, index, hs, hform]

theorem C1_add_widget_then_list_witness :
    demoState.session = some 1 ∧
    ((add_item demoState (some "Widget") (some "5") (some "2.50")).1 = ItemResult.success ∧
     (add_item demoState (some "Widget") (some "5") (some "2.50")).2.items =
       demoState.items ++
         [{ id := demoState.nextItemId, name := "Widget", quantity := 5, price := mkRat 5 2 }] ∧
     (index (add_item demoState (some "Widget") (some "5") (some "2.50")).2).1 =
       IndexResult.page (demoState.items ++
         [{ id := demoState.nextItemId, name := "Widget", quantity := 5, price := mkRat 5 2 }]) ∧
     ({ id := demoState.nextItemId, name := "Widget", quantity := 5, price := mkRat 5 2 } : Item) ∈
       demoState.items ++
         [{ id := demoState.nextItemId, name := "Widget", quantity := 5, price := mkRat 5 2 }]) :=
  ⟨rfl, C1_add_widget_then_list demoState 1 rfl⟩

/-- Claim C2, counterexample to the universal form: with username alice
taken, a second registration for alice whose password is the two-character
string ab fails with a form validation error, not with DuplicateUsername
(though the User table is indeed unchanged). -/
theorem C2_register_duplicate_cex :
    (aliceState.users.find? (fun x => x.username == "alice")).isSome = true ∧
    (register aliceState "alice" "ab" "ab").1 = RegisterResult.formError ∧
    RegisterResult.formError ≠ RegisterResult.duplicateUsername ∧
    (register aliceState "alice" "ab" "ab").2.users = aliceState.users := by
  decide

/-- Claim C2 (amended): if a User with username u already exists and the
visitor is not logged in, then register fails with DuplicateUsername for
every submission that passes form validation; and for every password and
confirmation whatsoever, the failed attempt leaves the User table
unchanged. -/
theorem C2_register_duplicate (s : AppState) (u p c : String)
    (hdup : (s.users.find? (fun x => x.username == u)).isSome)
    (hns : s.session = none) :
    (validateRegisterForm u p c = true →
      register s u p c = (RegisterResult.duplicateUsername, s)) ∧
    (register s u p c).2.users = s.users := by
  obtain ⟨r, hr⟩ := Option.isSome_iff_exists.mp hdup
  constructor
  · intro hv
    unfold register
    rw [if_neg (by simp [hns]), if_pos hv, hr]
  · unfold register
    rw [if_neg (by simp [hns])]
    by_cases hv : validateRegisterForm u p c = true
    · rw [if_pos hv, hr]
    · rw [if_neg hv]

theorem C2_register_duplicate_witness :
    (aliceState.users.find? (fun x => x.username == "alice")).isSome = true ∧
    aliceState.session = none ∧
    ((validateRegisterForm "alice" "secret" "secret" = true →
       register aliceState "alice" "secret" "secret" =
         (RegisterResult.duplicateUsername, aliceState)) ∧
     (register aliceState "alice" "secret" "secret").2.users = aliceState.users) :=
  ⟨by decide, by decide,
   C2_register_duplicate aliceState "alice" "secret" "secret" (by decide) (by decide)⟩

/-- Claim C3, counterexample to the universal form: alice is registered with
password password; the empty password fails the hash check, yet logging in
with it yields a form validation error, not InvalidCredentials (no session
is established either way). -/
theorem C3_login_cex :
    (aliceState.users.find? (fun x => x.username == "alice")).isSome = true ∧
    check_password_hash
      (((aliceState.users.find? (fun x => x.username == "alice")).getD
          { id := 0, username := "", passwordHash := "" }).passwordHash) "" = false ∧
    (login aliceState "alice" "").1 = LoginResult.formError ∧
    LoginResult.formError ≠ LoginResult.invalidCredentials := by
  decide

/-- Claim C3 (amended): for every user registered through the register
operation, login with that username and the registration password succeeds
and establishes a session; and for a stored user whose hash check fails on a
candidate password, login yields InvalidCredentials whenever the login form
validates, and in every case establishes no session. -/
theorem C3_login_correctness (s : AppState) (u p : String) :
    (s.session = none → (register s u p p).1 = RegisterResult.success →
      (login (register s u p p).2 u p).1 = LoginResult.success ∧
      (login (register s u p p).2 u p).2.session = some s.nextUserId) ∧
    (∀ (q : String) (r : User),
      s.session = none →
      s.users.find? (fun x => x.username == u) = some r →
      check_password_hash r.passwordHash q = false →
      (validateLoginForm u q = true →
        login s u q = (LoginResult.invalidCredentials, s)) ∧
      (login s u q).2.session = none) := by
  constructor
  · intro hns hsucc
    by_cases hv : validateRegisterForm u p p = true
    · cases hf : s.users.find? (fun x => x.username == u) with
      | some r =>
          exfalso
          unfold register at hsucc
          rw [if_neg (by simp [hns]), if_pos hv, hf] at hsucc
          simp at hsucc
      | none =>
          have hreg : register s u p p =
              (RegisterResult.success,
                { s with
                    users := s.users ++ [newUser s u p],
                    nextUserId := s.nextUserId + 1 }) := by
            unfold register
            rw [if_neg (by simp [hns]), if_pos hv, hf]
            rfl
          have hvl := validateRegisterForm_login u p p hv
          have hfind2 : (s.users ++ [newUser s u p]).find?
              (fun x => x.username == u) = some (newUser s u p) := by
            rw [find?_append_none _ _ hf]
            simp [List.find?_cons, newUser]
          have hchk : check_password_hash
              ((newUser s u p).passwordHash) p = true := by
            simp [check_password_hash, newUser]
          rw [hreg]
          constructor
          · unfold login
            rw [if_neg (by simp [hns]), if_pos hvl, hfind2]
            dsimp only
            rw [if_pos hchk]
          · unfold login
            rw [if_neg (by simp [hns]), if_pos hvl, hfind2]
            dsimp only
            rw [if_pos hchk]
            rfl
    · exfalso
      unfold register at hsucc
      rw [if_neg (by simp [hns]), if_neg hv] at hsucc
      simp at hsucc
  · intro q r hns hfind hcheck
    constructor
    · intro hvl
      unfold login
      rw [if_neg (by simp [hns]), if_pos hvl, hfind]
      dsimp only
      rw [if_neg (by simp [hcheck])]
    · unfold login
      rw [if_neg (by simp [hns])]
      by_cases hvl : validateLoginForm u q = true
      · rw [if_pos hvl, hfind]
        dsimp only
        rw [if_neg (by simp [hcheck])]
        exact hns
      · rw [if_neg hvl]
        exact hns

theorem C3_login_correctness_witness :
    (initState.session = none ∧
     (register initState "alice" "password" "password").1 = RegisterResult.success) ∧
    ((login (register initState "alice" "password" "password").2 "alice" "password").1 =
       LoginResult.success ∧
     (login (register initState "alice" "password" "password").2 "alice" "password").2.session =
       some initState.nextUserId) ∧
    (aliceState.session = none ∧
     aliceState.users.find? (fun x => x.username == "alice") =
       some { id := 1, username := "alice", passwordHash := generate_password_hash "password" } ∧
     check_password_hash (generate_password_hash "password") "wrongpass" = false) ∧
    ((validateLoginForm "alice" "wrongpass" = true →
       login aliceState "alice" "wrongpass" = (LoginResult.invalidCredentials, aliceState)) ∧
     (login aliceState "alice" "wrongpass").2.session = none) :=
  ⟨⟨rfl, by decide⟩,
   (C3_login_correctness initState "alice" "password").1 rfl (by decide),
   ⟨by decide, by decide, by decide⟩,
   (C3_login_correctness aliceState "alice" "password").2 "wrongpass"
     { id := 1, username := "alice", passwordHash := generate_password_hash "password" }
     (by decide) (by decide) (by decide)⟩

/-- Claim C4, code bug: with a logged-in session and a store of exactly two
Items, the export route does not produce the claimed 3-line CSV attachment.
Its csv.writer writes str rows into a BytesIO buffer, so already the first
writerow (the header) raises TypeError and the route ends in a server
error with the store unchanged; no file response is ever produced. -/
theorem C4_export_crash :
    twoItemState.session = some 1 ∧
    twoItemState.items = [itemA, itemB] ∧
    export_items twoItemState = (ExportResult.serverError, twoItemState) ∧
    (∀ resp : ExportResponse,
      (export_items twoItemState).1 ≠ ExportResult.file resp) := by
  have hcrash : export_items twoItemState = (ExportResult.serverError, twoItemState) := by
    decide
  refine ⟨rfl, rfl, hcrash, fun resp h => ?_⟩
  rw [hcrash] at h
  simp at h

/-- Claim C5: for every item id not present in the store, both edit and
delete fail with NotFound (the 404 outcome) and leave the state unchanged;
delete on an existing id succeeds and removes exactly the rows bearing that
id (under the primary-key uniqueness invariant, exactly that Item). -/
theorem C5_item_not_found (s : AppState) (uid iid : Int)
    (hs : s.session = some uid) :
    (s.items.find? (fun i => i.id == iid) = none →
      (∀ n q p, edit_item s iid n q p = (ItemResult.notFound, s)) ∧
      delete_item s iid = (ItemResult.notFound, s)) ∧
    ((s.items.find? (fun i => i.id == iid)).isSome →
      (s.items.map Item.id).Nodup →
      (delete_item s iid).1 = ItemResult.success ∧
      (delete_item s iid).2.items = s.items.filter (fun j => !(j.id == iid))) := by
  constructor
  · intro hnf
    constructor
    · intro n q p
      unfold edit_item
      rw [if_neg (by simp [hs]), hnf]
    · unfold delete_item
      rw [if_neg (by simp [hs]), hnf]
  · intro hf hnd
    obtain ⟨r, hr⟩ := Option.isSome_iff_exists.mp hf
    constructor
    · unfold delete_item
      rw [if_neg (by simp [hs]), hr]
    · unfold delete_item
      rw [if_neg (by simp [hs]), hr]
      dsimp only
      exact eraseFirst_eq_filter s.items iid hnd

theorem C5_item_not_found_witness :
    twoItemState.session = some 1 ∧
    twoItemState.items.find? (fun i => i.id == 99) = none ∧
    (twoItemState.items.find? (fun i => i.id == 1)).isSome = true ∧
    (twoItemState.items.map Item.id).Nodup ∧
    ((∀ n q p, edit_item twoItemState 99 n q p = (ItemResult.notFound, twoItemState)) ∧
     delete_item twoItemState 99 = (ItemResult.notFound, twoItemState)) ∧
    ((delete_item twoItemState 1).1 = ItemResult.success ∧
     (delete_item twoItemState 1).2.items =
       twoItemState.items.filter (fun j => !(j.id == 1))) :=
  ⟨rfl, by decide, by decide, by decide,
   (C5_item_not_found twoItemState 1 99 rfl).1 (by decide),
   (C5_item_not_found twoItemState 1 1 rfl).2 (by decide) (by decide)⟩

/-- Claim C6: for every existing Item and every valid edit submission
targeting it, edit changes only the submitted name, quantity and price of
that Item; its id, every other Item, the User table and the session are
unchanged. -/
theorem C6_edit_frame (s : AppState) (uid iid : Int) (n q p : Option String)
    (nm : String) (qv : Int) (pv : Rat)
    (hs : s.session = some uid)
    (hnd : (s.items.map Item.id).Nodup)
    (hfound : (s.items.find? (fun i => i.id == iid)).isSome)
    (hform : itemFormData n q p = some (nm, qv, pv)) :
    (edit_item s iid n q p).1 = ItemResult.success ∧
    (edit_item s iid n q p).2.items =
      s.items.map (fun j => if j.id == iid then
        { j with name := nm, quantity := qv, price := pv } else j) ∧
    (edit_item s iid n q p).2.users = s.users ∧
    (edit_item s iid n q p).2.session = s.session := by
  obtain ⟨r, hr⟩ := Option.isSome_iff_exists.mp hfound
  have hred : edit_item s iid n q p =
      (ItemResult.success,
        { s with items := updateFirst s.items iid (fun i => { i with name := nm, quantity := qv, price := pv }) }) := by
    unfold edit_item
    rw [if_neg (by simp [hs]), hr]
    dsimp only
    rw [hform]
  rw [hred]
  refine ⟨rfl, ?_, rfl, rfl⟩
  simpa using updateFirst_eq_map s.items iid _ hnd

theorem C6_edit_frame_witness :
    twoItemState.session = some 1 ∧
    (twoItemState.items.map Item.id).Nodup ∧
    (twoItemState.items.find? (fun i => i.id == 1)).isSome = true ∧
    itemFormData (some "Apricot") (some "4") (some "2.25") =
      some ("Apricot", 4, mkRat 9 4) ∧
    ((edit_item twoItemState 1 (some "Apricot") (some "4") (some "2.25")).1 =
       ItemResult.success ∧
     (edit_item twoItemState 1 (some "Apricot") (some "4") (some "2.25")).2.items =
       twoItemState.items.map (fun j => if j.id == 1 then
         { j with name := "Apricot", quantity := 4, price := mkRat 9 4 } else j) ∧
     (edit_item twoItemState 1 (some "Apricot") (some "4") (some "2.25")).2.users =
       twoItemState.users ∧
     (edit_item twoItemState 1 (some "Apricot") (some "4") (some "2.25")).2.session =
       twoItemState.session) :=
  ⟨rfl, by decide, by decide, by decide,
   C6_edit_frame twoItemState 1 1 (some "Apricot") (some "4") (some "2.25")
     "Apricot" 4 (mkRat 9 4) rfl (by decide) (by decide) (by decide)⟩

/-- Claim C7, counterexample to the universal form: the submission with name
Widget, quantity 0, price 1.0 has all three fields present and numeric
quantity and price, yet add rejects it without creating an Item, because the
DataRequired validator treats the coerced value 0 as absent. -/
theorem C7_add_item_validation_cex :
    demoState.session = some 1 ∧
    pyParseInt "0" = some 0 ∧
    pyParseFloat "1.0" = some (mkRat 1 1) ∧
    dataRequired "Widget" = true ∧
    (add_item demoState (some "Widget") (some "0") (some "1.0")).1 =
      ItemResult.formError ∧
    (add_item demoState (some "Widget") (some "0") (some "1.0")).2.items =
      demoState.items := by
  decide

/-- Claim C7 (amended): for a logged-in session, add creates an Item exactly
when the name is present and non-blank, the quantity is present and parses
to a nonzero integer, and the price is present and parses to a nonzero
float; any other submission (a missing field, a failed numeric coercion, or
a zero value, which the DataRequired validator treats as absent) is rejected
with the state unchanged. -/
theorem C7_add_item_validation (s : AppState) (uid : Int)
    (n q p : Option String) (hs : s.session = some uid) :
    ((add_item s n q p).1 = ItemResult.success ↔
      ∃ nm qs ps qn pr, n = some nm ∧ q = some qs ∧ p = some ps ∧
        dataRequired nm = true ∧ pyParseInt qs = some qn ∧ qn ≠ 0 ∧
        pyParseFloat ps = some pr ∧ pr ≠ 0) ∧
    ((add_item s n q p).1 ≠ ItemResult.success → (add_item s n q p).2 = s) ∧
    ((add_item s n q p).1 = ItemResult.success →
      ∃ nm qn pr, itemFormData n q p = some (nm, qn, pr) ∧
        (add_item s n q p).2.items =
          s.items ++ [{ id := s.nextItemId, name := nm, quantity := qn, price := pr }]) := by
  cases hfd : itemFormData n q p with
  | none =>
      have hred : add_item s n q p = (ItemResult.formError, s) := by
        unfold add_item
        rw [if_neg (by simp [hs]), hfd]
      rw [hred]
      refine ⟨⟨fun hc => by simp at hc, ?_⟩, fun _ => rfl, fun hc => by simp at hc⟩
      rintro ⟨nm, qs, ps, qn, pr, rfl, rfl, rfl, hdr, hqi, hqn, hpf, hpn⟩
      exfalso
      have hsome : itemFormData (some nm) (some qs) (some ps) = some (nm, qn, pr) := by
        rw [itemFormData_eq_some]
        exact ⟨rfl, hqi, hpf, hdr, hqn, hpn⟩
      rw [hfd] at hsome
      exact Option.noConfusion hsome
  | some t =>
      obtain ⟨nm, qn, pr⟩ := t
      have hred : add_item s n q p =
          (ItemResult.success,
            { s with
                items := s.items ++
                  [{ id := s.nextItemId, name := nm, quantity := qn, price := pr }],
                nextItemId := s.nextItemId + 1 }) := by
        unfold add_item
        rw [if_neg (by simp [hs]), hfd]
      obtain ⟨hn, hq, hp, hdr, hqn, hpn⟩ := (itemFormData_eq_some n q p nm qn pr).mp hfd
      obtain ⟨qs, hqs, hqi⟩ := Option.bind_eq_some.mp hq
      obtain ⟨ps, hps, hpf⟩ := Option.bind_eq_some.mp hp
      rw [hred]
      exact ⟨Iff.intro
          (fun _ => ⟨nm, qs, ps, qn, pr, hn, hqs, hps, hdr, hqi, hqn, hpf, hpn⟩)
          (fun _ => rfl),
        fun hcon => absurd rfl hcon,
        fun _ => ⟨nm, qn, pr, rfl, rfl⟩⟩

theorem C7_add_item_validation_witness :
    demoState.session = some 1 ∧
    (((add_item demoState (some "Widget") (some "5") (some "2.50")).1 = ItemResult.success ↔
       ∃ nm qs ps qn pr, (some "Widget" : Option String) = some nm ∧
         (some "5" : Option String) = some qs ∧ (some "2.50" : Option String) = some ps ∧
         dataRequired nm = true ∧ pyParseInt qs = some qn ∧ qn ≠ 0 ∧
         pyParseFloat ps = some pr ∧ pr ≠ 0) ∧
     ((add_item demoState (some "Widget") (some "5") (some "2.50")).1 ≠ ItemResult.success →
       (add_item demoState (some "Widget") (some "5") (some "2.50")).2 = demoState) ∧
     ((add_item demoState (some "Widget") (some "5") (some "2.50")).1 = ItemResult.success →
       ∃ nm qn pr, itemFormData (some "Widget") (some "5") (some "2.50") = some (nm, qn, pr) ∧
         (add_item demoState (some "Widget") (some "5") (some "2.50")).2.items =
           demoState.items ++
             [{ id := demoState.nextItemId, name := nm, quantity := qn, price := pr }])) :=
  ⟨rfl, C7_add_item_validation demoState 1 (some "Widget") (some "5") (some "2.50") rfl⟩

/-- Claim C8: every request to an auth-required route (list, logout, add,
edit, delete, export) made without an authenticated session performs no
data-store read or write of Items and results in a redirect to the login
page; the state is returned untouched, so the handler body is never
reached. -/
theorem C8_auth_guard (s : AppState) (hs : s.session = none) :
    index s = (IndexResult.redirectLogin, s) ∧
    logout s = (LogoutResult.redirectLogin, s) ∧
    (∀ n q p, add_item s n q p = (ItemResult.redirectLogin, s)) ∧
    (∀ iid n q p, edit_item s iid n q p = (ItemResult.redirectLogin, s)) ∧
    (∀ iid, delete_item s iid = (ItemResult.redirectLogin, s)) ∧
    export_items s = (ExportResult.redirectLogin, s) := by
  refine ⟨?_, ?_, fun n q p => ?_, fun iid n q p => ?_, fun iid => ?_, ?_⟩ <;>
    simp [index, logout, add_item, edit_item, delete_item, export_items, hs]

theorem C8_auth_guard_witness :
    initState.session = none ∧
    (index initState = (IndexResult.redirectLogin, initState) ∧
     logout initState = (LogoutResult.redirectLogin, initState) ∧
     (∀ n q p, add_item initState n q p = (ItemResult.redirectLogin, initState)) ∧
     (∀ iid n q p, edit_item initState iid n q p = (ItemResult.redirectLogin, initState)) ∧
     (∀ iid, delete_item initState iid = (ItemResult.redirectLogin, initState)) ∧
     export_items initState = (ExportResult.redirectLogin, initState)) :=
  ⟨rfl, C8_auth_guard initState rfl⟩

/-- Claim C9: no exposed operation other than register modifies the User
table: login, logout, list, add, edit, delete and export leave the set of
User records identical, and register only ever appends a single new User,
never updating or deleting one. -/
theorem C9_user_table_invariant (s : AppState) :
    (∀ u p, (login s u p).2.users = s.users) ∧
    (logout s).2.users = s.users ∧
    (index s).2.users = s.users ∧
    (∀ n q p, (add_item s n q p).2.users = s.users) ∧
    (∀ iid n q p, (edit_item s iid n q p).2.users = s.users) ∧
    (∀ iid, (delete_item s iid).2.users = s.users) ∧
    (export_items s).2.users = s.users ∧
    (∀ u p c, (register s u p c).2.users = s.users ∨
      ∃ nu, (register s u p c).2.users = s.users ++ [nu]) := by
  refine ⟨fun u p => ?_, ?_, ?_, fun n q p => ?_, fun iid n q p => ?_,
    fun iid => ?_, ?_, fun u p c => ?_⟩
  · unfold login; (repeat' split) <;> rfl
  · unfold logout; (repeat' split) <;> rfl
  · unfold index; (repeat' split) <;> rfl
  · unfold add_item; (repeat' split) <;> rfl
  · unfold edit_item; (repeat' split) <;> rfl
  · unfold delete_item; (repeat' split) <;> rfl
  · unfold export_items; (repeat' split) <;> rfl
  · unfold register
    (repeat' split) <;> first
      | exact Or.inl rfl
      | exact Or.inr ⟨_, rfl⟩

/-- Claim C10: register rejects, without creating any User, every submission
whose username is shorter than 4 or longer than 150 characters, whose
password is shorter than 4 characters, or whose confirmation differs from
the password. -/
theorem C10_register_bounds (s : AppState) (u p c : String)
    (h : u.length < 4 ∨ 150 < u.length ∨ p.length < 4 ∨ c ≠ p) :
    (register s u p c).1 ≠ RegisterResult.success ∧
    (register s u p c).2.users = s.users := by
  have hv : validateRegisterForm u p c = false := by
    cases hvb : validateRegisterForm u p c
    · rfl
    · exfalso
      obtain ⟨h1, h2, h3, h4⟩ := validateRegisterForm_bounds u p c hvb
      rcases h with h | h | h | h
      · omega
      · omega
      · omega
      · exact h h4
  unfold register
  split
  · exact ⟨by simp, rfl⟩
  · rw [if_neg (by simp [hv])]
    exact ⟨by simp, rfl⟩

theorem C10_register_bounds_witness :
    ("ab".length < 4 ∨ 150 < "ab".length ∨ "password".length < 4 ∨
      "password" ≠ "password") ∧
    ((register initState "ab" "password" "password").1 ≠ RegisterResult.success ∧
     (register initState "ab" "password" "password").2.users = initState.users) :=
  ⟨Or.inl (by decide),
   C10_register_bounds initState "ab" "password" "password" (Or.inl (by decide))⟩

end GroceryInventory
